import Mathlib

/-!
Verification of the evolution-morphology simulation engine.

This file shallowly embeds the JavaScript simulation core
(organism-manager, evolution-manager, simulation-manager, math-utils,
core constants) into Lean 4 and proves the specified properties.

Modelling conventions:
* JS numbers are modelled as rationals (`ℚ`); every arithmetic operation
  appearing in the verified code paths (`+`, `-`, `*`, `/`, `min`, `max`,
  comparisons, `floor`) is exact on `ℚ`.
* `Math.random()` is modelled as an oracle stream `Rng.unif : ℕ → ℚ` of
  draw results, consumed in program order; where a property needs it we
  hypothesise `0 ≤ unif n < 1`, which is what `Math.random` guarantees.
* `gaussian(mean, stdDev)` from math-utils returns `z0 * stdDev + mean`
  where `z0` is a standard-normal draw computed with `sqrt`/`log`/`cos`;
  the transcendental `z0` is modelled as a second oracle stream
  `Rng.gauss : ℕ → ℚ` (one entry per `gaussian` call), unconstrained.
* `generateId()` results are modelled as an oracle stream `Rng.ids`.
* Transcendental library functions (`Math.sqrt`, `Math.atan2`,
  `Math.cos`, `Math.sin`, `Math.PI`) are modelled as components of an
  abstract `MathOracle`; all proved properties hold for every oracle.
-/

/-- 2D vector / point, `{x, y}` in the JS code. -/
structure Vec2 where
  x : ℚ
  y : ℚ
deriving DecidableEq, Repr

/-- A gene: `{ value, mutationRate }`. -/
structure Gene where
  value : ℚ
  mutationRate : ℚ
deriving DecidableEq, Repr

/-- Appendage kind: the JS strings "fin" and "flagella". -/
inductive AppType where
  | fin
  | flagella
deriving DecidableEq, Repr

/-- An appendage gene group: `{ type, length, position, angle }`. -/
structure Appendage where
  type : AppType
  length : Gene
  position : Gene
  angle : Gene
deriving DecidableEq, Repr

/-- A genome: the six scalar genes plus the appendage list, field order
matching JS object insertion order (the order `Object.keys` iterates). -/
structure Genome where
  bodySize : Gene
  bodyShape : Gene
  metabolism : Gene
  sensorRange : Gene
  speed : Gene
  turnRate : Gene
  appendages : List Appendage
deriving DecidableEq, Repr

/-- A phenotype appendage: unwrapped plain floats. -/
structure PhenAppendage where
  type : AppType
  length : ℚ
  position : ℚ
  angle : ℚ
deriving DecidableEq, Repr

/-- A phenotype: each genome scalar gene's value unwrapped. -/
structure Phenotype where
  bodySize : ℚ
  bodyShape : ℚ
  metabolism : ℚ
  sensorRange : ℚ
  speed : ℚ
  turnRate : ℚ
  appendages : List PhenAppendage
deriving DecidableEq, Repr

/-- Organism mutable state.  `dead` models the `state.dead` flag that
`updateOrganisms` sets on starved organisms (absent = `false`). -/
structure OrgState where
  position : Vec2
  velocity : Vec2
  energy : ℚ
  age : ℚ
  dead : Bool
deriving DecidableEq, Repr

/-- An organism: `{ id, genome, phenotype, state }`. -/
structure Organism where
  id : String
  genome : Genome
  phenotype : Phenotype
  state : OrgState
deriving DecidableEq, Repr

/-- A resource: `{ id, type, position, value }`. -/
structure Resource where
  id : String
  rtype : String
  position : Vec2
  value : ℚ
deriving DecidableEq, Repr

/-- Environment boundaries `{width, height}`. -/
structure Bounds where
  width : ℚ
  height : ℚ
deriving DecidableEq, Repr

/-- Environment parameters `{resourceRegenerationRate, maxResources}`. -/
structure Params where
  resourceRegenerationRate : ℚ
  maxResources : ℚ
deriving DecidableEq, Repr

/-- Mutable environment value: `{ resources, boundaries, parameters }`. -/
structure EnvState where
  resources : List Resource
  boundaries : Bounds
  parameters : Params
deriving DecidableEq, Repr

/-! ## Constants (utils/core.js `CONSTANTS`) -/

namespace CONSTANTS

def ORGANISM_MIN_SIZE : ℚ := 5
def ORGANISM_MAX_SIZE : ℚ := 30
def ORGANISM_DEFAULT_ENERGY : ℚ := 100
def REPRODUCTION_ENERGY_THRESHOLD : ℚ := 150
def ENERGY_TRANSFER_RATIO : ℚ := 0.8
def MOVEMENT_ENERGY_COST : ℚ := 0.1
def DEFAULT_MUTATION_RATE : ℚ := 0.05
def MAX_MUTATION_RATE : ℚ := 0.2
def RESOURCE_DEFAULT_VALUE : ℚ := 25
def RESOURCE_REGENERATION_RATE : ℚ := 0.01
def MAX_RESOURCES : ℚ := 50

end CONSTANTS

/-! ## Randomness model -/

/-- Oracle streams for the sources of nondeterminism: results of
successive `Math.random()` calls, of successive `gaussian` calls
(the standard-normal factor `z0`), and of successive `generateId()`
calls. -/
structure Rng where
  unif : ℕ → ℚ
  gauss : ℕ → ℚ
  ids : ℕ → String

/-- Cursor into the three oracle streams. -/
structure RS where
  u : ℕ
  g : ℕ
  i : ℕ
deriving DecidableEq, Repr

/-- Consume one `Math.random()` result. -/
def takeU (R : Rng) (s : RS) : ℚ × RS :=
  (R.unif s.u, { s with u := s.u + 1 })

/-- Consume one standard-normal draw (the `z0` of one `gaussian` call). -/
def takeG (R : Rng) (s : RS) : ℚ × RS :=
  (R.gauss s.g, { s with g := s.g + 1 })

/-- Consume one `generateId()` result. -/
def takeId (R : Rng) (s : RS) : String × RS :=
  (R.ids s.i, { s with i := s.i + 1 })

/-- math-utils `gaussian(mean, stdDev)` given its standard-normal factor
`z0`: the code returns `z0 * stdDev + mean`. -/
def gaussian (mean stdDev z0 : ℚ) : ℚ :=
  z0 * stdDev + mean

/-- math-utils `random(min, max)`: `Math.random() * (max - min) + min`. -/
def randomQ (R : Rng) (lo hi : ℚ) (s : RS) : ℚ × RS :=
  let (r, s) := takeU R s
  (r * (hi - lo) + lo, s)

/-! ## Mutation engine (evolution-manager `mutateGenome`, part_008) -/

/-- One scalar-gene mutation step of `mutateGenome`: with probability
`gene.mutationRate * mutationRate` add a Gaussian perturbation of the
given magnitude to `value` and clamp to [0,1]. -/
def mutateGene (R : Rng) (m : ℚ) (magnitude : ℚ) (g : Gene) (s : RS) :
    Gene × RS :=
  let (r, s) := takeU R s
  if r < g.mutationRate * m then
    let (z, s) := takeG R s
    ({ g with value := max 0 (min 1 (g.value + gaussian 0 magnitude z)) }, s)
  else
    (g, s)

/-- Flip an appendage type between fin and flagella. -/
def flipType : AppType → AppType
  | AppType.fin => AppType.flagella
  | AppType.flagella => AppType.fin

/-- Per-appendage mutation body of `mutateGenome`: mutate the three
scalar sub-genes (magnitude 0.25 under a jump mutation, 0.1 otherwise),
maybe flip the type, and under a jump mutation maybe apply the
"specialization" extra perturbation (magnitude 0.4) to `length`. -/
def mutateApp (R : Rng) (m : ℚ) (isJump : Bool) (a : Appendage) (s : RS) :
    Appendage × RS :=
  let magnitude : ℚ := if isJump then 0.25 else 0.1
  let (len, s) := mutateGene R m magnitude a.length s
  let (pos, s) := mutateGene R m magnitude a.position s
  let (ang, s) := mutateGene R m magnitude a.angle s
  let (rt, s) := takeU R s
  let ty := if rt < m * (if isJump then 0.3 else 0.1) then flipType a.type
            else a.type
  if isJump then
    let (rspec, s) := takeU R s
    if rspec < m * 0.2 then
      let (z, s) := takeG R s
      ({ type := ty,
         length := { len with
           value := max 0 (min 1 (len.value + gaussian 0 0.4 z)) },
         position := pos, angle := ang }, s)
    else
      ({ type := ty, length := len, position := pos, angle := ang }, s)
  else
    ({ type := ty, length := len, position := pos, angle := ang }, s)

/-- `forEach` over the appendage list, threading the random cursor. -/
def mutateApps (R : Rng) (m : ℚ) (isJump : Bool) :
    List Appendage → RS → List Appendage × RS
  | [], s => ([], s)
  | a :: rest, s =>
    let (a2, s) := mutateApp R m isJump a s
    let (rest2, s) := mutateApps R m isJump rest s
    (a2 :: rest2, s)

/-- A freshly initialized appendage as pushed by `mutateGenome` (and by
`generateRandomGenome`): uniform type, `length ∈ random(0.3, 0.8)`,
`position, angle ∈ random(0, 1)`. -/
def freshAppendage (R : Rng) (s : RS) : Appendage × RS :=
  let (rt, s) := takeU R s
  let ty := if rt > 0.5 then AppType.fin else AppType.flagella
  let (lv, s) := randomQ R 0.3 0.8 s
  let (pv, s) := randomQ R 0 1 s
  let (av, s) := randomQ R 0 1 s
  (⟨ty, ⟨lv, 0.05⟩, ⟨pv, 0.02⟩, ⟨av, 0.04⟩⟩, s)

/-- The appendage-add step of `mutateGenome`: only when the list has
fewer than 3 entries, with probability `mutationRate * (0.4 jump / 0.2
normal)`, push one freshly initialized appendage. -/
def maybeAddAppendage (R : Rng) (m : ℚ) (isJump : Bool)
    (apps : List Appendage) (s : RS) : List Appendage × RS :=
  let addChance : ℚ := if isJump then 0.4 else 0.2
  if apps.length < 3 then
    let (ra, s) := takeU R s
    if ra < m * addChance then
      let (fresh, s) := freshAppendage R s
      (apps ++ [fresh], s)
    else (apps, s)
  else (apps, s)

/-- The appendage-remove step of `mutateGenome`: only when the list is
nonempty, with probability `mutationRate * (0.15 jump / 0.1 normal)`,
splice out the appendage at index `floor(random * length)`. -/
def maybeRemoveAppendage (R : Rng) (m : ℚ) (isJump : Bool)
    (apps : List Appendage) (s : RS) : List Appendage × RS :=
  let removeChance : ℚ := if isJump then 0.15 else 0.1
  if 0 < apps.length then
    let (rr, s) := takeU R s
    if rr < m * removeChance then
      let (ri, s) := takeU R s
      (apps.eraseIdx (Int.floor (ri * apps.length)).toNat, s)
    else (apps, s)
  else (apps, s)

/-- evolution-manager (part_008) `mutateGenome(genome)`:
jump decision, per-scalar-gene mutation in key order, per-appendage
mutation, probabilistic appendage add (only when fewer than 3) and
remove (only when nonempty).  `m` is the module-level `mutationRate`. -/
def mutateGenome (R : Rng) (m : ℚ) (genome : Genome) (s : RS) :
    Genome × RS :=
  let (rj, s) := takeU R s
  let isJump : Bool := decide (rj < 0.05 * m)
  let magnitude : ℚ := if isJump then 0.3 else 0.1
  let (bodySize, s) := mutateGene R m magnitude genome.bodySize s
  let (bodyShape, s) := mutateGene R m magnitude genome.bodyShape s
  let (metabolism, s) := mutateGene R m magnitude genome.metabolism s
  let (sensorRange, s) := mutateGene R m magnitude genome.sensorRange s
  let (speed, s) := mutateGene R m magnitude genome.speed s
  let (turnRate, s) := mutateGene R m magnitude genome.turnRate s
  let (apps, s) := mutateApps R m isJump genome.appendages s
  let added := maybeAddAppendage R m isJump apps s
  let removed := maybeRemoveAppendage R m isJump added.1 added.2
  ({ bodySize := bodySize, bodyShape := bodyShape, metabolism := metabolism,
     sensorRange := sensorRange, speed := speed, turnRate := turnRate,
     appendages := removed.1 }, removed.2)

/-- Repeated application of `mutateGenome`, each call continuing to
consume the oracle streams where the previous call stopped. -/
def mutateIter (R : Rng) (m : ℚ) : ℕ → Genome × RS → Genome × RS
  | 0, gs => gs
  | n + 1, gs => mutateIter R m n (mutateGenome R m gs.1 gs.2)

/-- The `for` loop of `generateRandomGenome` that pushes `n` random
appendages. -/
def addRandomAppendages (R : Rng) : ℕ → List Appendage → RS →
    List Appendage × RS
  | 0, acc, s => (acc, s)
  | n + 1, acc, s =>
    let (a, s) := freshAppendage R s
    addRandomAppendages R n (acc ++ [a]) s

/-- organism-manager `generateRandomGenome()`: scalar genes uniform in
[0.3, 0.7], then `floor(random(0, 3.99))` appendages, each randomly
initialized exactly like `freshAppendage`. -/
def generateRandomGenome (R : Rng) (s : RS) : Genome × RS :=
  let (bs, s) := randomQ R 0.3 0.7 s
  let (bsh, s) := randomQ R 0.3 0.7 s
  let (met, s) := randomQ R 0.3 0.7 s
  let (sr, s) := randomQ R 0.3 0.7 s
  let (sp, s) := randomQ R 0.3 0.7 s
  let (tr, s) := randomQ R 0.3 0.7 s
  let (rc, s) := randomQ R 0 3.99 s
  let count := (Int.floor rc).toNat
  let (apps, s) := addRandomAppendages R count [] s
  ({ bodySize := ⟨bs, 0.03⟩, bodyShape := ⟨bsh, 0.02⟩,
     metabolism := ⟨met, 0.03⟩, sensorRange := ⟨sr, 0.02⟩,
     speed := ⟨sp, 0.04⟩, turnRate := ⟨tr, 0.03⟩,
     appendages := apps }, s)

/-! ## Organism lifecycle (organism-manager.js) -/

/-- organism-manager `generateDefaultGenome()`. -/
def generateDefaultGenome : Genome :=
  { bodySize := ⟨0.5, 0.03⟩, bodyShape := ⟨0.5, 0.02⟩,
    metabolism := ⟨0.5, 0.03⟩, sensorRange := ⟨0.5, 0.02⟩,
    speed := ⟨0.5, 0.04⟩, turnRate := ⟨0.5, 0.03⟩,
    appendages := [⟨AppType.fin, ⟨0.5, 0.05⟩, ⟨0.5, 0.02⟩, ⟨0.5, 0.04⟩⟩] }

/-- organism-manager `generatePhenotype(genome)`: unwrap every gene's
`value` (the identity genotype→phenotype mapping). -/
def generatePhenotype (genome : Genome) : Phenotype :=
  { bodySize := genome.bodySize.value,
    bodyShape := genome.bodyShape.value,
    metabolism := genome.metabolism.value,
    sensorRange := genome.sensorRange.value,
    speed := genome.speed.value,
    turnRate := genome.turnRate.value,
    appendages := genome.appendages.map fun a =>
      ⟨a.type, a.length.value, a.position.value, a.angle.value⟩ }

/-- The optional `state` fields of the `properties` argument of
`createOrganism`; a `none` field falls back to the default state. -/
structure StateProps where
  position : Option Vec2 := none
  velocity : Option Vec2 := none
  energy : Option ℚ := none
  age : Option ℚ := none
  dead : Option Bool := none

/-- The optional top-level fields of the `properties` argument of
`createOrganism` (the merge `{...defaultOrganism, ...properties}`). -/
structure CreateProps where
  id : Option String := none
  genome : Option Genome := none
  phenotype : Option Phenotype := none
  state : StateProps := {}

/-- organism-manager `createOrganism(properties)`: build the default
organism (fresh id, genome from `properties.genome || default`,
phenotype generated from that genome, default state), merge the
provided properties over it field by field, and push the result onto
the population array. -/
def createOrganism (R : Rng) (props : CreateProps) (pop : List Organism)
    (s : RS) : Organism × List Organism × RS :=
  let (freshId, s) := takeId R s
  let genome := props.genome.getD generateDefaultGenome
  let phenotype := generatePhenotype genome
  let organism : Organism :=
    { id := props.id.getD freshId,
      genome := genome,
      phenotype := props.phenotype.getD phenotype,
      state :=
        { position := props.state.position.getD ⟨0, 0⟩,
          velocity := props.state.velocity.getD ⟨0, 0⟩,
          energy := props.state.energy.getD CONSTANTS.ORGANISM_DEFAULT_ENERGY,
          age := props.state.age.getD 0,
          dead := props.state.dead.getD false } }
  (organism, pop ++ [organism], s)

/-- organism-manager `removeOrganism(organismId)`:
`organisms = organisms.filter(o => o.id !== organismId)`, returning
`organisms.length < initialLength`. -/
def removeOrganism (pop : List Organism) (organismId : String) :
    Bool × List Organism :=
  let filtered := pop.filter fun o => o.id != organismId
  (decide (filtered.length < pop.length), filtered)

/-- organism-manager `getOrganismById(organismId)`: `find` then
`deepClone`; in this value model the deep clone is the value itself. -/
def getOrganismById (pop : List Organism) (organismId : String) :
    Option Organism :=
  pop.find? fun o => o.id == organismId

/-- Abstract model of the transcendental `Math` functions used by the
code; every proved property holds for an arbitrary oracle. -/
structure MathOracle where
  sqrt : ℚ → ℚ
  atan2 : ℚ → ℚ → ℚ
  cos : ℚ → ℚ
  sin : ℚ → ℚ
  pi : ℚ

/-- Evolution-module state: the population (owned by organism-manager)
and the generation counter (owned by evolution-manager). -/
structure SimState where
  organisms : List Organism
  generationCount : ℕ
deriving DecidableEq, Repr

/-- evolution-manager (part_008) `reproduceOrganism(parentId)`:
look the parent up; fail with `null` if absent or below the
reproduction energy threshold; otherwise mutate the parent genome,
create the offspring (energy `parent.energy * ENERGY_TRANSFER_RATIO`,
position offset by 20px in a random direction plus jitter, velocity
damped 80% plus jitter), create a copy of the parent carrying
`parent.energy * (1 - ENERGY_TRANSFER_RATIO)` (same id, spread of
`parent`), call `removeOrganism(parentId)`, increment the generation
counter, and return the offspring id. -/
def reproduceOrganism (O : MathOracle) (R : Rng) (m : ℚ) (st : SimState)
    (parentId : String) (s : RS) : Option String × SimState × RS :=
  match getOrganismById st.organisms parentId with
  | none => (none, st, s)
  | some parent =>
    if parent.state.energy < CONSTANTS.REPRODUCTION_ENERGY_THRESHOLD then
      (none, st, s)
    else
      let (offspringGenome, s) := mutateGenome R m parent.genome s
      let energyTransfer :=
        parent.state.energy * CONSTANTS.ENERGY_TRANSFER_RATIO
      let updatedParentEnergy :=
        parent.state.energy * (1 - CONSTANTS.ENERGY_TRANSFER_RATIO)
      let positionOffset : ℚ := 20
      let (ra1, s) := takeU R s
      let (ro1, s) := takeU R s
      let px := parent.state.position.x
        + positionOffset * O.cos (ra1 * O.pi * 2) + (ro1 * 20 - 10)
      let (ra2, s) := takeU R s
      let (ro2, s) := takeU R s
      let py := parent.state.position.y
        + positionOffset * O.sin (ra2 * O.pi * 2) + (ro2 * 20 - 10)
      let (ro3, s) := takeU R s
      let vx := parent.state.velocity.x * 0.8 + (ro3 * 20 - 10) * 0.2
      let (ro4, s) := takeU R s
      let vy := parent.state.velocity.y * 0.8 + (ro4 * 20 - 10) * 0.2
      let (offspring, pop, s) := createOrganism R
        { genome := some offspringGenome,
          state := { position := some ⟨px, py⟩,
                     velocity := some ⟨vx, vy⟩,
                     energy := some energyTransfer } }
        st.organisms s
      let (_, pop, s) := createOrganism R
        { id := some parent.id,
          genome := some parent.genome,
          phenotype := some parent.phenotype,
          state := { position := some parent.state.position,
                     velocity := some parent.state.velocity,
                     energy := some updatedParentEnergy,
                     age := some parent.state.age,
                     dead := some parent.state.dead } }
        pop s
      let (_, pop) := removeOrganism pop parentId
      (some offspring.id,
       { organisms := pop, generationCount := st.generationCount + 1 }, s)

/-! ## Per-tick organism update (organism-manager.js) -/

/-- math-utils `distance(point1, point2)`:
`sqrt(dx*dx + dy*dy)` through the oracle square root. -/
def distance (O : MathOracle) (p1 p2 : Vec2) : ℚ :=
  O.sqrt ((p2.x - p1.x) * (p2.x - p1.x) + (p2.y - p1.y) * (p2.y - p1.y))

/-- organism-manager `mapPhenotypeToSize(value)`:
`MIN_SIZE + value * (MAX_SIZE - MIN_SIZE)`. -/
def mapPhenotypeToSize (value : ℚ) : ℚ :=
  CONSTANTS.ORGANISM_MIN_SIZE +
    value * (CONSTANTS.ORGANISM_MAX_SIZE - CONSTANTS.ORGANISM_MIN_SIZE)

/-- `Math.sign`. -/
def signQ (x : ℚ) : ℚ :=
  if 0 < x then 1 else if x < 0 then -1 else 0

/-- Denotation of the two angle-normalization `while` loops of
`moveTowardsTarget` (`while (d > π) d -= 2π; while (d < -π) d += 2π`):
for positive `pi` each loop terminates after the minimal number of
`2*pi` steps that lands the value in `[-pi, pi]`, which is exactly the
ceiling expression below.  (For `pi ≤ 0`, which never arises, the JS
loop would not terminate; we return the input.) -/
def normalizeAngle (pi d : ℚ) : ℚ :=
  if pi ≤ 0 then d
  else if pi < d then d - 2 * pi * Int.ceil ((d - pi) / (2 * pi))
  else if d < -pi then d + 2 * pi * Int.ceil ((-pi - d) / (2 * pi))
  else d

/-- organism-manager `moveTowardsTarget`: steer the velocity toward the
target, turning by at most `turnRate * deltaTime`, then set its
magnitude to `maxSpeed`. -/
def moveTowardsTarget (O : MathOracle) (org : Organism) (target : Vec2)
    (maxSpeed turnRate dt : ℚ) : Organism :=
  let targetAngle := O.atan2 (target.y - org.state.position.y)
    (target.x - org.state.position.x)
  let currentAngle := O.atan2 org.state.velocity.y org.state.velocity.x
  let angleDiff := normalizeAngle O.pi (targetAngle - currentAngle)
  let maxTurn := turnRate * dt
  let newAngle := currentAngle + signQ angleDiff * min |angleDiff| maxTurn
  { org with state := { org.state with
      velocity := ⟨O.cos newAngle * maxSpeed, O.sin newAngle * maxSpeed⟩ } }

/-- organism-manager `randomMovement`: random bounded heading change at
80–100% of `maxSpeed`. -/
def randomMovement (O : MathOracle) (R : Rng) (org : Organism)
    (maxSpeed turnRate dt : ℚ) (s : RS) : Organism × RS :=
  let currentAngle := O.atan2 org.state.velocity.y org.state.velocity.x
  let (r1, s) := takeU R s
  let randomTurn := (r1 - 0.5) * turnRate * dt
  let newAngle := currentAngle + randomTurn
  let (r2, s) := takeU R s
  let speedVariation := 0.8 + r2 * 0.2
  let speed := maxSpeed * speedVariation
  ({ org with state := { org.state with
      velocity := ⟨O.cos newAngle * speed, O.sin newAngle * speed⟩ } }, s)

/-- organism-manager `findNearestResource`: nearest resource strictly
within `sensorRange * 200` pixels, scanning in array order and keeping
the first-found among equidistant ones. -/
def findNearestResource (O : MathOracle) (org : Organism)
    (env : EnvState) : Option Resource :=
  if env.resources.isEmpty then none
  else
    let sensorRange := org.phenotype.sensorRange * 200
    let best := env.resources.foldl
      (fun acc r =>
        let dist := distance O org.state.position r.position
        match acc with
        | none => if dist < sensorRange then some (r, dist) else none
        | some (_, bd) =>
          if dist < sensorRange ∧ dist < bd then some (r, dist) else acc)
      none
    best.map (·.1)

/-- organism-manager `constrainToEnvironment(organism, environment)`:
at each axis, if the position crossed the low edge (inset by the body
radius) clamp it there and make the velocity component point inward
(`Math.abs`), else if it crossed the high edge clamp there and reflect
(`-Math.abs`).  Each JS branch assigns position and velocity together;
they are written here as two conditionals with identical conditions. -/
def constrainToEnvironment (org : Organism) (env : EnvState) : Organism :=
  let width := env.boundaries.width
  let height := env.boundaries.height
  let radius := mapPhenotypeToSize org.phenotype.bodySize
  let p := org.state.position
  let v := org.state.velocity
  let px := if p.x < radius then radius
            else if p.x > width - radius then width - radius else p.x
  let vx := if p.x < radius then |v.x|
            else if p.x > width - radius then -|v.x| else v.x
  let py := if p.y < radius then radius
            else if p.y > height - radius then height - radius else p.y
  let vy := if p.y < radius then |v.y|
            else if p.y > height - radius then -|v.y| else v.y
  { org with state := { org.state with
      position := ⟨px, py⟩, velocity := ⟨vx, vy⟩ } }

/-- organism-manager `moveOrganism` proper. -/
def moveOrganism (O : MathOracle) (R : Rng) (org : Organism) (dt : ℚ)
    (env : EnvState) (s : RS) : Organism × RS :=
  let maxSpeed := org.phenotype.speed * 50
  let turnRate := org.phenotype.turnRate * 2
  let moved :=
    match findNearestResource O org env with
    | some res => (moveTowardsTarget O org res.position maxSpeed turnRate dt, s)
    | none => randomMovement O R org maxSpeed turnRate dt s
  let org := moved.1
  let s := moved.2
  let org := { org with state := { org.state with
      position := ⟨org.state.position.x + org.state.velocity.x * dt,
                   org.state.position.y + org.state.velocity.y * dt⟩ } }
  (constrainToEnvironment org env, s)

/-- organism-manager `decreaseEnergy`: subtract metabolic, movement and
size upkeep costs, then clamp the energy at 0 (`Math.max(0, ·)`). -/
def decreaseEnergy (O : MathOracle) (org : Organism) (dt : ℚ) : Organism :=
  let baseConsumption :=
    org.phenotype.metabolism * CONSTANTS.MOVEMENT_ENERGY_COST * dt
  let speed := O.sqrt (org.state.velocity.x ^ 2 + org.state.velocity.y ^ 2)
  let movementConsumption := speed * CONSTANTS.MOVEMENT_ENERGY_COST * dt
  let sizeConsumption := org.phenotype.bodySize * 0.01 * dt
  let e := org.state.energy -
    (baseConsumption + movementConsumption + sizeConsumption)
  { org with state := { org.state with energy := max 0 e } }

/-- organism-manager `findAndConsumeResources`: the backwards
splice-loop removes every resource strictly within the consumption
radius and adds each removed resource's `value` to the energy; its net
effect is this partition of the resource array. -/
def findAndConsumeResources (O : MathOracle) (org : Organism)
    (env : EnvState) : Organism × EnvState :=
  if env.resources.isEmpty then (org, env)
  else
    let consumptionRadius := mapPhenotypeToSize org.phenotype.bodySize
    let near := fun (r : Resource) =>
      decide (distance O org.state.position r.position < consumptionRadius)
    let consumed := env.resources.filter near
    let kept := env.resources.filter fun r => !near r
    ({ org with state := { org.state with
        energy := org.state.energy + (consumed.map (·.value)).sum } },
     { env with resources := kept })

/-- The body of the `organisms.forEach` in `updateOrganisms`: age,
energy decay, movement, foraging, death marking. -/
def updateOrganismStep (O : MathOracle) (R : Rng) (dt : ℚ)
    (org : Organism) (env : EnvState) (s : RS) :
    Organism × EnvState × RS :=
  let org := { org with state := { org.state with
      age := org.state.age + dt } }
  let org := decreaseEnergy O org dt
  let moved := moveOrganism O R org dt env s
  let eaten := findAndConsumeResources O moved.1 env
  let org :=
    if eaten.1.state.energy ≤ 0 then
      { eaten.1 with state := { eaten.1.state with dead := true } }
    else eaten.1
  (org, eaten.2, moved.2)

/-- The `forEach` over the population, threading the shared environment
(resource consumption by earlier organisms is visible to later ones). -/
def updateAll (O : MathOracle) (R : Rng) (dt : ℚ) :
    List Organism → EnvState → RS → List Organism × EnvState × RS
  | [], env, s => ([], env, s)
  | org :: rest, env, s =>
    let step := updateOrganismStep O R dt org env s
    let restOut := updateAll O R dt rest step.2.1 step.2.2
    (step.1 :: restOut.1, restOut.2)

/-- organism-manager `updateOrganisms(deltaTime, environment)`: update
every organism, then batch-filter the dead
(`organisms = organisms.filter(o => !o.state.dead)`). -/
def updateOrganisms (O : MathOracle) (R : Rng) (dt : ℚ)
    (pop : List Organism) (env : EnvState) (s : RS) :
    List Organism × EnvState × RS :=
  let out := updateAll O R dt pop env s
  (out.1.filter fun o => !o.state.dead, out.2)

/-! ## Resource regeneration (simulation-manager.js `updateResources`) -/

/-- The `for (let i = 0; i < resourcesToAdd; i++)` push loop of
`updateResources`: each iteration spawns one food resource of
`DEFAULT_VALUE` at a uniformly random position.  `now` stands for the
`Date.now()` part of the generated id. -/
def spawnResources (R : Rng) (now : String) (w h : ℚ) :
    ℕ → ℕ → List Resource → RS → List Resource × RS
  | _, 0, acc, s => (acc, s)
  | i, n + 1, acc, s =>
    let (rx, s) := takeU R s
    let (ry, s) := takeU R s
    let res : Resource :=
      { id := "resource-" ++ now ++ "-" ++ toString i, rtype := "food",
        position := ⟨rx * w, ry * h⟩,
        value := CONSTANTS.RESOURCE_DEFAULT_VALUE }
    spawnResources R now w h (i + 1) n (acc ++ [res]) s

/-- simulation-manager `updateResources(deltaTime)`: when the resource
count is strictly below `maxResources`, draw one Bernoulli trial with
success probability `resourceRegenerationRate * deltaTime` and add
`min(resourcesNeeded, trial ? 1 : 0)` resources (the JS `for` loop over
a rational bound runs `⌈max 0 bound⌉` times). -/
def updateResources (R : Rng) (now : String) (env : EnvState) (dt : ℚ)
    (s : RS) : EnvState × RS :=
  if (env.resources.length : ℚ) < env.parameters.maxResources then
    let resourcesNeeded :=
      env.parameters.maxResources - (env.resources.length : ℚ)
    let (rb, s) := takeU R s
    let bern : ℚ :=
      if rb < env.parameters.resourceRegenerationRate * dt then 1 else 0
    let resourcesToAdd := min resourcesNeeded bern
    let addCount := (Int.ceil (max 0 resourcesToAdd)).toNat
    let (resources, s) := spawnResources R now env.boundaries.width
      env.boundaries.height 0 addCount env.resources s
    ({ env with resources := resources }, s)
  else
    (env, s)

/-! ## Fitness (evolution-manager part_008) -/

/-- Per-appendage efficiency, by type: the body of the `forEach` in
`calculateAppendageEfficiency` (fins reward speed, flagella reward
turn rate). -/
def appendageEfficiency (speed turnRate : ℚ) (app : PhenAppendage) : ℚ :=
  match app.type with
  | AppType.fin => 0.5 + (app.length * 0.5) * (speed * 0.5)
  | AppType.flagella => 0.7 + (app.length * 0.3) * (turnRate * 0.5)

/-- evolution-manager `calculateAppendageEfficiency(organism)`: 0.5 with
no appendages, otherwise the average per-appendage efficiency times the
diminishing-returns factor `max(0, 1 - max(0, count - 2) * 0.2)`. -/
def calculateAppendageEfficiency (organism : Organism) : ℚ :=
  let appendages := organism.phenotype.appendages
  if appendages.length = 0 then 0.5
  else
    let totalEfficiency := (appendages.map
      (appendageEfficiency organism.phenotype.speed
        organism.phenotype.turnRate)).sum
    let averageEfficiency := totalEfficiency / (appendages.length : ℚ)
    let diminishingFactor :=
      max 0 (1 - max 0 ((appendages.length : ℚ) - 2) * 0.2)
    averageEfficiency * diminishingFactor

/-- evolution-manager `calculateEnvironmentFit(organism, environment)`:
resource-density-dependent trait reward, clamped to [0,1]. -/
def calculateEnvironmentFit (organism : Organism) (environment : EnvState) :
    ℚ :=
  let resourceDensity := min 1
    ((environment.resources.length : ℚ) / environment.parameters.maxResources)
  let environmentFit :=
    if resourceDensity > 0.7 then
      0.3 + organism.phenotype.speed * 0.4 +
        organism.phenotype.metabolism * 0.3
    else if resourceDensity < 0.3 then
      0.3 + (1 - organism.phenotype.metabolism) * 0.4 +
        organism.phenotype.sensorRange * 0.3
    else
      let balanceFactor :=
        1 - |organism.phenotype.speed - (1 - organism.phenotype.metabolism)|
      0.4 + balanceFactor * 0.6
  max 0 (min 1 environmentFit)

/-- evolution-manager (part_008) `calculateOrganismFitness(organism,
environment = null)`: the weighted sum of the seven component scores,
written exactly as the code computes it. -/
def calculateOrganismFitness (organism : Organism)
    (environment : Option EnvState) : ℚ :=
  let energyScore :=
    organism.state.energy / CONSTANTS.REPRODUCTION_ENERGY_THRESHOLD
  let metabolismScore := 1 - organism.phenotype.metabolism
  let sensorScore := organism.phenotype.sensorRange
  let movementScore :=
    organism.phenotype.speed * (1 - organism.phenotype.metabolism)
  let ageScore := min 1 (organism.state.age / 100)
  let appendageScore := calculateAppendageEfficiency organism
  let environmentScore :=
    match environment with
    | some env => calculateEnvironmentFit organism env
    | none => 0.5
  energyScore * 0.35 + metabolismScore * 0.15 + sensorScore * 0.1 +
    movementScore * 0.15 + ageScore * 0.1 + appendageScore * 0.05 +
    environmentScore * 0.1

/-- The fitness formula as the specification words it: the weighted
linear combination `0.35*energyScore + 0.15*metabolismScore +
0.1*sensorScore + 0.15*movementScore + 0.1*ageScore +
0.05*appendageScore + 0.1*environmentScore`, with the component scores
the specification names (appendage score: per-type average efficiency
scaled by the diminishing-returns factor, 0.5 with no appendages;
environment score: the environment-fit score, 0.5 when no environment
is supplied). -/
def specFitness (o : Organism) (environment : Option EnvState) : ℚ :=
  let count := o.phenotype.appendages.length
  let appendageScore :=
    if count = 0 then 0.5
    else
      ((o.phenotype.appendages.map
          (appendageEfficiency o.phenotype.speed o.phenotype.turnRate)).sum
        / (count : ℚ)) *
        max 0 (1 - max 0 ((count : ℚ) - 2) * 0.2)
  let environmentScore :=
    match environment with
    | some env => calculateEnvironmentFit o env
    | none => 0.5
  0.35 * (o.state.energy / CONSTANTS.REPRODUCTION_ENERGY_THRESHOLD) +
    0.15 * (1 - o.phenotype.metabolism) +
    0.1 * o.phenotype.sensorRange +
    0.15 * (o.phenotype.speed * (1 - o.phenotype.metabolism)) +
    0.1 * min 1 (o.state.age / 100) +
    0.05 * appendageScore +
    0.1 * environmentScore

/-! ## Snapshot interfaces and aliasing
(simulation-manager `getEnvironment`, organism-manager
`getAllOrganisms`) -/

/-- A minimal JS heap for the mutable arrays reachable from the two
snapshot interfaces: resource arrays and organism arrays addressed by
references (`ℕ`).  `orgNext` is the next fresh organism-array
reference; every allocated reference is `< orgNext`. -/
structure Heap where
  resArrays : ℕ → List Resource
  orgArrays : ℕ → List Organism
  orgNext : ℕ

/-- Read the resource array behind a reference. -/
def Heap.readRes (h : Heap) (ref : ℕ) : List Resource :=
  h.resArrays ref

/-- Overwrite the resource array behind a reference (the effect of any
in-place caller mutation: push, splice, element rewrite). -/
def Heap.writeRes (h : Heap) (ref : ℕ) (v : List Resource) : Heap :=
  { h with resArrays := Function.update h.resArrays ref v }

/-- Read the organism array behind a reference. -/
def Heap.readOrgs (h : Heap) (ref : ℕ) : List Organism :=
  h.orgArrays ref

/-- Overwrite the organism array behind a reference. -/
def Heap.writeOrgs (h : Heap) (ref : ℕ) (v : List Organism) : Heap :=
  { h with orgArrays := Function.update h.orgArrays ref v }

/-- Allocate a fresh organism array (the effect of `deepClone`). -/
def Heap.allocOrgs (h : Heap) (v : List Organism) : ℕ × Heap :=
  (h.orgNext,
   { h with orgArrays := Function.update h.orgArrays h.orgNext v,
            orgNext := h.orgNext + 1 })

/-- `Array.prototype.push` through a reference. -/
def pushResource (h : Heap) (ref : ℕ) (r : Resource) : Heap :=
  h.writeRes ref (h.readRes ref ++ [r])

/-- The simulation-manager module's `environment` variable: its
`resources` field is a mutable array, modelled as a heap reference.
(`boundaries` and `parameters` hold only numbers and are mutated by no
claim, so they are inlined as values.) -/
structure EnvObj where
  resourcesRef : ℕ
  boundaries : Bounds
  parameters : Params

/-- simulation-manager `getEnvironment()`: `return { ...environment }` —
a shallow copy.  The spread copies the top-level fields, so the
snapshot's `resources` field is the same array reference as the
internal environment's. -/
def getEnvironment (env : EnvObj) : EnvObj :=
  { resourcesRef := env.resourcesRef,
    boundaries := env.boundaries,
    parameters := env.parameters }

/-- organism-manager `getAllOrganisms()`: `return deepClone(organisms)` —
the JSON round trip allocates a fresh, fully independent copy of the
population array; the caller receives the fresh reference. -/
def getAllOrganisms (h : Heap) (popRef : ℕ) : ℕ × Heap :=
  h.allocOrgs (h.readOrgs popRef)

/-! ## Concrete objects used by witnesses and counterexamples -/

/-- A concrete math oracle (all transcendentals 0, `pi = 3`). -/
def mathOracle0 : MathOracle := ⟨fun _ => 0, fun _ _ => 0, fun _ => 0, fun _ => 0, 3⟩

/-- A concrete randomness oracle: every uniform and normal draw is 0,
every generated id is `"c"`. -/
def rng0 : Rng := ⟨fun _ => 0, fun _ => 0, fun _ => "c"⟩

/-- Oracle cursor at the start of the streams. -/
def rs0 : RS := ⟨0, 0, 0⟩

/-! ## C10 — removeOrganism removes all matches -/

/-- C10: `removeOrganism(organismId)` removes every organism whose id
equals `organismId` — not only the first match (so duplicated ids are
all removed by one call) — and returns `true` iff at least one organism
was removed. -/
theorem removeOrganism_removes_all_matches (pop : List Organism)
    (organismId : String) :
    (removeOrganism pop organismId).2
        = pop.filter (fun o => o.id != organismId)
    ∧ (∀ o ∈ (removeOrganism pop organismId).2, o.id ≠ organismId)
    ∧ ((removeOrganism pop organismId).1 = true ↔
        ∃ o ∈ pop, o.id = organismId) := by
  refine ⟨rfl, ?_, ?_⟩
  · intro o ho
    have h := List.of_mem_filter ho
    simpa using h
  · show decide ((pop.filter fun o => o.id != organismId).length < pop.length)
        = true ↔ _
    rw [decide_eq_true_eq, List.length_filter_lt_length_iff_exists]
    constructor
    · rintro ⟨o, ho, h⟩
      exact ⟨o, ho, by simpa using h⟩
    · rintro ⟨o, ho, h⟩
      exact ⟨o, ho, by simpa using h⟩

/-! ## C7 — reproduceOrganism failure cases -/

/-- C7: `reproduceOrganism(parentId)` returns `null` and leaves the
population, the generation counter and the random streams untouched
whenever the parent id is not in the population or the parent's energy
is strictly below `REPRODUCTION_ENERGY_THRESHOLD`; conversely a
non-null result implies a parent at or above the threshold was found. -/
theorem reproduceOrganism_null_cases (O : MathOracle) (R : Rng) (m : ℚ)
    (st : SimState) (parentId : String) (s : RS) :
    ((∀ o ∈ st.organisms, o.id ≠ parentId) →
      reproduceOrganism O R m st parentId s = (none, st, s))
    ∧ (∀ p, getOrganismById st.organisms parentId = some p →
        p.state.energy < CONSTANTS.REPRODUCTION_ENERGY_THRESHOLD →
        reproduceOrganism O R m st parentId s = (none, st, s))
    ∧ ((reproduceOrganism O R m st parentId s).1 ≠ none →
        ∃ p, getOrganismById st.organisms parentId = some p ∧
          CONSTANTS.REPRODUCTION_ENERGY_THRESHOLD ≤ p.state.energy) := by
  refine ⟨?_, ?_, ?_⟩
  · intro h
    have hfind : getOrganismById st.organisms parentId = none := by
      unfold getOrganismById
      rw [List.find?_eq_none]
      intro x hx
      simpa using h x hx
    unfold reproduceOrganism
    rw [hfind]
  · intro p hp hlt
    unfold reproduceOrganism
    rw [hp]
    simp only [if_pos hlt]
  · intro h
    cases hfind : getOrganismById st.organisms parentId with
    | none =>
      exfalso
      apply h
      unfold reproduceOrganism
      rw [hfind]
    | some p =>
      by_cases hlt : p.state.energy < CONSTANTS.REPRODUCTION_ENERGY_THRESHOLD
      · exfalso
        apply h
        unfold reproduceOrganism
        rw [hfind]
        simp only [if_pos hlt]
      · exact ⟨p, rfl, le_of_not_lt hlt⟩

/-- Witness for C7: on the empty population every reproduction attempt
returns `null` and changes nothing. -/
theorem reproduceOrganism_null_cases_witness :
    reproduceOrganism mathOracle0 rng0 CONSTANTS.DEFAULT_MUTATION_RATE
      ⟨[], 0⟩ "p" rs0 = (none, ⟨[], 0⟩, rs0) :=
  (reproduceOrganism_null_cases mathOracle0 rng0
    CONSTANTS.DEFAULT_MUTATION_RATE ⟨[], 0⟩ "p" rs0).1 (by simp)

/-! ## C8 — fitness is the stated weighted linear combination -/

/-- C8: `calculateOrganismFitness` computes exactly the weighted linear
combination `0.35*energyScore + 0.15*metabolismScore + 0.1*sensorScore
+ 0.15*movementScore + 0.1*ageScore + 0.05*appendageScore +
0.1*environmentScore` with the component scores as specified
(energy/threshold, 1 - metabolism, sensorRange, speed*(1-metabolism),
min(1, age/100), per-type average appendage efficiency scaled by the
diminishing-returns factor — 0.5 with no appendages — and the
environment-fit score — 0.5 when no environment is supplied). -/
theorem calculateOrganismFitness_eq_specFitness (o : Organism)
    (env : Option EnvState) :
    calculateOrganismFitness o env = specFitness o env := by
  unfold calculateOrganismFitness specFitness calculateAppendageEfficiency
  cases env <;> dsimp only <;> split_ifs <;> ring

/-! ## C9 — boundary containment -/

/-- One axis of the position clamp stays in `[r, w - r]` when the
environment is at least one diameter wide. -/
lemma clampEdge_mem (p r w : ℚ) (h : 2 * r ≤ w) :
    r ≤ (if p < r then r else if p > w - r then w - r else p)
    ∧ (if p < r then r else if p > w - r then w - r else p) ≤ w - r := by
  split_ifs with h1 h2 <;> constructor <;> linarith

/-- One axis of the velocity update points back inward at a reached
edge. -/
lemma reflectEdge_sign (p v r w : ℚ) (h : 2 * r ≤ w) :
    (p < r → 0 ≤ (if p < r then |v| else if p > w - r then -|v| else v))
    ∧ (w - r < p →
        (if p < r then |v| else if p > w - r then -|v| else v) ≤ 0) := by
  constructor
  · intro hp
    rw [if_pos hp]
    exact abs_nonneg v
  · intro hp
    have hpr : ¬p < r := by linarith
    rw [if_neg hpr, if_pos hp]
    simp [neg_nonpos]

/-- Projection: the constrained x position. -/
lemma constrain_pos_x (org : Organism) (env : EnvState) :
    (constrainToEnvironment org env).state.position.x
      = (if org.state.position.x < mapPhenotypeToSize org.phenotype.bodySize
         then mapPhenotypeToSize org.phenotype.bodySize
         else if org.state.position.x >
            env.boundaries.width - mapPhenotypeToSize org.phenotype.bodySize
         then env.boundaries.width - mapPhenotypeToSize org.phenotype.bodySize
         else org.state.position.x) := rfl

/-- Projection: the constrained y position. -/
lemma constrain_pos_y (org : Organism) (env : EnvState) :
    (constrainToEnvironment org env).state.position.y
      = (if org.state.position.y < mapPhenotypeToSize org.phenotype.bodySize
         then mapPhenotypeToSize org.phenotype.bodySize
         else if org.state.position.y >
            env.boundaries.height - mapPhenotypeToSize org.phenotype.bodySize
         then env.boundaries.height - mapPhenotypeToSize org.phenotype.bodySize
         else org.state.position.y) := rfl

/-- Projection: the constrained x velocity. -/
lemma constrain_vel_x (org : Organism) (env : EnvState) :
    (constrainToEnvironment org env).state.velocity.x
      = (if org.state.position.x < mapPhenotypeToSize org.phenotype.bodySize
         then |org.state.velocity.x|
         else if org.state.position.x >
            env.boundaries.width - mapPhenotypeToSize org.phenotype.bodySize
         then -|org.state.velocity.x|
         else org.state.velocity.x) := rfl

/-- Projection: the constrained y velocity. -/
lemma constrain_vel_y (org : Organism) (env : EnvState) :
    (constrainToEnvironment org env).state.velocity.y
      = (if org.state.position.y < mapPhenotypeToSize org.phenotype.bodySize
         then |org.state.velocity.y|
         else if org.state.position.y >
            env.boundaries.height - mapPhenotypeToSize org.phenotype.bodySize
         then -|org.state.velocity.y|
         else org.state.velocity.y) := rfl

/-- `moveOrganism` ends by constraining the steered-and-integrated
organism, whose phenotype is the input organism's. -/
lemma moveOrganism_eq_constrain (O : MathOracle) (R : Rng) (org : Organism)
    (dt : ℚ) (env : EnvState) (s : RS) :
    ∃ org2 : Organism,
      (moveOrganism O R org dt env s).1 = constrainToEnvironment org2 env
      ∧ org2.phenotype = org.phenotype := by
  unfold moveOrganism
  cases h : findNearestResource O org env with
  | none =>
    refine ⟨_, rfl, ?_⟩
    rfl
  | some res =>
    refine ⟨_, rfl, ?_⟩
    rfl

/-- C9: after position integration and the boundary constraint the
position lies in `[radius, width-radius] × [radius, height-radius]`
(radius = `MIN_SIZE + bodySize*(MAX_SIZE-MIN_SIZE)`), and at each edge
that was reached the velocity component points back into the
environment (`|v|` at the low edge, `-|v|` at the high edge). -/
theorem constrainToEnvironment_containment (O : MathOracle) (R : Rng)
    (org : Organism) (dt : ℚ) (env : EnvState) (s : RS)
    (hw : 2 * mapPhenotypeToSize org.phenotype.bodySize ≤ env.boundaries.width)
    (hh : 2 * mapPhenotypeToSize org.phenotype.bodySize ≤ env.boundaries.height) :
    (mapPhenotypeToSize org.phenotype.bodySize
        ≤ (constrainToEnvironment org env).state.position.x
      ∧ (constrainToEnvironment org env).state.position.x
        ≤ env.boundaries.width - mapPhenotypeToSize org.phenotype.bodySize
      ∧ mapPhenotypeToSize org.phenotype.bodySize
        ≤ (constrainToEnvironment org env).state.position.y
      ∧ (constrainToEnvironment org env).state.position.y
        ≤ env.boundaries.height - mapPhenotypeToSize org.phenotype.bodySize)
    ∧ ((org.state.position.x < mapPhenotypeToSize org.phenotype.bodySize →
          0 ≤ (constrainToEnvironment org env).state.velocity.x)
      ∧ (env.boundaries.width - mapPhenotypeToSize org.phenotype.bodySize
            < org.state.position.x →
          (constrainToEnvironment org env).state.velocity.x ≤ 0)
      ∧ (org.state.position.y < mapPhenotypeToSize org.phenotype.bodySize →
          0 ≤ (constrainToEnvironment org env).state.velocity.y)
      ∧ (env.boundaries.height - mapPhenotypeToSize org.phenotype.bodySize
            < org.state.position.y →
          (constrainToEnvironment org env).state.velocity.y ≤ 0))
    ∧ (mapPhenotypeToSize org.phenotype.bodySize
        ≤ (moveOrganism O R org dt env s).1.state.position.x
      ∧ (moveOrganism O R org dt env s).1.state.position.x
        ≤ env.boundaries.width - mapPhenotypeToSize org.phenotype.bodySize
      ∧ mapPhenotypeToSize org.phenotype.bodySize
        ≤ (moveOrganism O R org dt env s).1.state.position.y
      ∧ (moveOrganism O R org dt env s).1.state.position.y
        ≤ env.boundaries.height - mapPhenotypeToSize org.phenotype.bodySize) := by
  refine ⟨?_, ?_, ?_⟩
  · rw [constrain_pos_x, constrain_pos_y]
    have hx := clampEdge_mem org.state.position.x
      (mapPhenotypeToSize org.phenotype.bodySize) env.boundaries.width hw
    have hy := clampEdge_mem org.state.position.y
      (mapPhenotypeToSize org.phenotype.bodySize) env.boundaries.height hh
    exact ⟨hx.1, hx.2, hy.1, hy.2⟩
  · rw [constrain_vel_x, constrain_vel_y]
    have hx := reflectEdge_sign org.state.position.x org.state.velocity.x
      (mapPhenotypeToSize org.phenotype.bodySize) env.boundaries.width hw
    have hy := reflectEdge_sign org.state.position.y org.state.velocity.y
      (mapPhenotypeToSize org.phenotype.bodySize) env.boundaries.height hh
    exact ⟨hx.1, hx.2, hy.1, hy.2⟩
  · obtain ⟨org2, heq, hph⟩ := moveOrganism_eq_constrain O R org dt env s
    rw [heq, constrain_pos_x, constrain_pos_y, hph]
    have hx := clampEdge_mem org2.state.position.x
      (mapPhenotypeToSize org.phenotype.bodySize) env.boundaries.width hw
    have hy := clampEdge_mem org2.state.position.y
      (mapPhenotypeToSize org.phenotype.bodySize) env.boundaries.height hh
    exact ⟨hx.1, hx.2, hy.1, hy.2⟩

/-- A concrete organism used by witnesses: default genome/phenotype,
centered position, energy 200. -/
def organism0 : Organism :=
  { id := "p", genome := generateDefaultGenome,
    phenotype := generatePhenotype generateDefaultGenome,
    state := { position := ⟨100, 100⟩, velocity := ⟨3, -4⟩,
               energy := 200, age := 0, dead := false } }

/-- A concrete environment with the default 800×600 boundaries and no
resources. -/
def envState0 : EnvState :=
  { resources := [],
    boundaries := ⟨800, 600⟩,
    parameters := ⟨CONSTANTS.RESOURCE_REGENERATION_RATE,
                   CONSTANTS.MAX_RESOURCES⟩ }

/-- Witness for C9 at a concrete organism and the 800×600 environment
(radius 17.5). -/
theorem constrainToEnvironment_containment_witness :
    mapPhenotypeToSize organism0.phenotype.bodySize
      ≤ (constrainToEnvironment organism0 envState0).state.position.x :=
  ((constrainToEnvironment_containment mathOracle0 rng0 organism0 1
    envState0 rs0 (by norm_num [mapPhenotypeToSize, organism0,
      generatePhenotype, generateDefaultGenome, envState0, CONSTANTS.ORGANISM_MIN_SIZE,
      CONSTANTS.ORGANISM_MAX_SIZE])
    (by norm_num [mapPhenotypeToSize, organism0,
      generatePhenotype, generateDefaultGenome, envState0, CONSTANTS.ORGANISM_MIN_SIZE,
      CONSTANTS.ORGANISM_MAX_SIZE])).1).1

/-! ## C2 — snapshot isolation (refuted for getEnvironment) -/

/-- A concrete heap: one (empty) resource array at reference 0, one
(empty) organism array at reference 0. -/
def heap0 : Heap := ⟨fun _ => [], fun _ => [], 1⟩

/-- The internal environment object referencing resource array 0. -/
def envObj0 : EnvObj :=
  ⟨0, ⟨800, 600⟩, ⟨CONSTANTS.RESOURCE_REGENERATION_RATE,
      CONSTANTS.MAX_RESOURCES⟩⟩

/-- A concrete resource pushed by the caller. -/
def res0 : Resource := ⟨"r", "food", ⟨1, 2⟩, 25⟩

/-- Counterexample to C2: `getEnvironment()` is only a shallow copy
(`{ ...environment }`), so its `resources` field aliases the internal
resources array; a caller pushing one resource onto the snapshot's
resources array changes the simulation's internal environment. -/
theorem getEnvironment_shallow_copy_counterexample :
    (pushResource heap0 (getEnvironment envObj0).resourcesRef res0).readRes
        envObj0.resourcesRef
      ≠ heap0.readRes envObj0.resourcesRef := by
  simp [pushResource, getEnvironment, Heap.writeRes, Heap.readRes,
    heap0, envObj0, Function.update]

/-- C2 (amended): mutations of the `getAllOrganisms()` result never
touch internal state (it is a fresh deep clone), and `getEnvironment()`
hands out copies of the top-level fields — but its `resources` field is
the very same array reference as the internal environment's, so a
caller push onto the snapshot's resources array is observable in (and
mutates) the internal environment. -/
theorem snapshot_isolation_amended (h : Heap) (env : EnvObj) (popRef : ℕ)
    (hpop : popRef < h.orgNext) :
    ((getEnvironment env).resourcesRef = env.resourcesRef)
    ∧ (∀ r : Resource,
        (pushResource h (getEnvironment env).resourcesRef r).readRes
            env.resourcesRef
          = h.readRes env.resourcesRef ++ [r])
    ∧ (((getAllOrganisms h popRef).2).readOrgs (getAllOrganisms h popRef).1
        = h.readOrgs popRef)
    ∧ (∀ v : List Organism,
        (((getAllOrganisms h popRef).2).writeOrgs
            (getAllOrganisms h popRef).1 v).readOrgs popRef
          = h.readOrgs popRef) := by
  have hne : popRef ≠ h.orgNext := Nat.ne_of_lt hpop
  refine ⟨rfl, ?_, ?_, ?_⟩
  · intro r
    simp [pushResource, getEnvironment, Heap.writeRes, Heap.readRes]
  · simp [getAllOrganisms, Heap.allocOrgs, Heap.readOrgs]
  · intro v
    simp [getAllOrganisms, Heap.allocOrgs, Heap.readOrgs, Heap.writeOrgs,
      Function.update_noteq hne]

/-- Witness for the amended C2 at the concrete heap. -/
theorem snapshot_isolation_amended_witness :
    (getEnvironment envObj0).resourcesRef = envObj0.resourcesRef :=
  (snapshot_isolation_amended heap0 envObj0 0 (by norm_num [heap0])).1

/-! ## C5 — energy of surviving organisms is non-negative -/

/-- After one per-organism update, the organism is either marked dead or
has strictly positive energy: the death check runs after every energy
modification of the tick. -/
lemma updateOrganismStep_dead_or_pos (O : MathOracle) (R : Rng) (dt : ℚ)
    (org : Organism) (env : EnvState) (s : RS) :
    (updateOrganismStep O R dt org env s).1.state.dead = true
    ∨ 0 < (updateOrganismStep O R dt org env s).1.state.energy := by
  unfold updateOrganismStep
  dsimp only
  split
  · left; rfl
  · rename_i h
    exact Or.inr (lt_of_not_le h)

/-- Every organism in the updated (pre-filter) list is dead or has
positive energy. -/
lemma updateAll_dead_or_pos (O : MathOracle) (R : Rng) (dt : ℚ) :
    ∀ (pop : List Organism) (env : EnvState) (s : RS),
      ∀ o ∈ (updateAll O R dt pop env s).1,
        o.state.dead = true ∨ 0 < o.state.energy := by
  intro pop
  induction pop with
  | nil => intro env s o ho; simp [updateAll] at ho
  | cons head rest ih =>
    intro env s o ho
    rw [updateAll] at ho
    dsimp only at ho
    rcases List.mem_cons.mp ho with h | h
    · subst h
      exact updateOrganismStep_dead_or_pos O R dt head env s
    · exact ih _ _ o h

/-- C5: after one `updateOrganisms` tick every organism remaining in
the population has non-negative energy (`decreaseEnergy` clamps at 0
and the batch death filter removes any organism whose energy is ≤ 0 at
the end of its update). -/
theorem updateOrganisms_energy_nonneg (O : MathOracle) (R : Rng) (dt : ℚ)
    (pop : List Organism) (env : EnvState) (s : RS) (_hdt : 0 ≤ dt) :
    ∀ o ∈ (updateOrganisms O R dt pop env s).1, 0 ≤ o.state.energy := by
  intro o ho
  unfold updateOrganisms at ho
  dsimp only at ho
  have hmem := List.mem_of_mem_filter ho
  have hflt := List.of_mem_filter ho
  rcases updateAll_dead_or_pos O R dt pop env s o hmem with hdead | hpos
  · rw [hdead] at hflt
    simp at hflt
  · exact le_of_lt hpos

/-- Witness for C5: one concrete organism, the empty environment,
`deltaTime = 1`. -/
theorem updateOrganisms_energy_nonneg_witness :
    ((updateOrganisms mathOracle0 rng0 1 [organism0] envState0 rs0).1.all
      fun o => decide (0 ≤ o.state.energy)) = true := by
  rw [List.all_eq_true]
  intro o ho
  exact decide_eq_true
    (updateOrganisms_energy_nonneg mathOracle0 rng0 1 [organism0] envState0
      rs0 (by norm_num) o ho)

/-! ## C6 — resource regeneration adds at most one resource -/

/-- The spawn loop appends exactly `n` resources. -/
lemma spawnResources_length (R : Rng) (now : String) (w h : ℚ) :
    ∀ (n i : ℕ) (acc : List Resource) (s : RS),
      ((spawnResources R now w h i n acc s).1).length = acc.length + n := by
  intro n
  induction n with
  | zero => intro i acc s; rfl
  | succ k ih =>
    intro i acc s
    rw [spawnResources]
    dsimp only
    rw [ih]
    simp
    omega

/-- C6: on each tick `updateResources` (i) adds at most one resource;
(ii) preserves the cap `count ≤ maxResources` for an integer cap;
(iii) draws its Bernoulli trial only when the count is strictly below
`maxResources` (otherwise environment and random cursor are returned
untouched); (iv) on a successful trial appends exactly one food
resource with `value = DEFAULT_VALUE` at position
`(u1*width, u2*height)`; and (v) in the concrete scenario of 0
resources and `regenerationRate * deltaTime = 1` exactly one resource
is added. -/
theorem updateResources_spec (R : Rng) (now : String) (env : EnvState)
    (dt : ℚ) (s : RS) :
    ((updateResources R now env dt s).1.resources.length
        ≤ env.resources.length + 1)
    ∧ (∀ M : ℕ, env.parameters.maxResources = (M : ℚ) →
        env.resources.length ≤ M →
        (updateResources R now env dt s).1.resources.length ≤ M)
    ∧ (¬((env.resources.length : ℚ) < env.parameters.maxResources) →
        updateResources R now env dt s = (env, s))
    ∧ ((env.resources.length : ℚ) < env.parameters.maxResources →
        R.unif s.u < env.parameters.resourceRegenerationRate * dt →
        (1 : ℚ) ≤ env.parameters.maxResources - (env.resources.length : ℚ) →
        (updateResources R now env dt s).1.resources
          = env.resources ++
            [⟨"resource-" ++ now ++ "-" ++ toString 0, "food",
              ⟨R.unif (s.u + 1) * env.boundaries.width,
               R.unif (s.u + 2) * env.boundaries.height⟩,
              CONSTANTS.RESOURCE_DEFAULT_VALUE⟩])
    ∧ (env.resources = [] →
        env.parameters.resourceRegenerationRate * dt = 1 →
        R.unif s.u < 1 →
        (0 : ℚ) < env.parameters.maxResources →
        (updateResources R now env dt s).1.resources.length = 1) := by
  refine ⟨?_, ?_, ?_, ?_, ?_⟩
  · by_cases hc : (env.resources.length : ℚ) < env.parameters.maxResources
    · unfold updateResources
      rw [if_pos hc]
      dsimp only [takeU]
      rw [spawnResources_length]
      have hb : (if R.unif s.u <
          env.parameters.resourceRegenerationRate * dt then (1 : ℚ) else 0)
          ≤ 1 := by split <;> norm_num
      have hq : max 0 (min
          (env.parameters.maxResources - (env.resources.length : ℚ))
          (if R.unif s.u <
            env.parameters.resourceRegenerationRate * dt then (1 : ℚ) else 0))
          ≤ 1 := by
        refine max_le (by norm_num) (le_trans (min_le_right _ _) hb)
      have hceil : Int.ceil (max 0 (min
          (env.parameters.maxResources - (env.resources.length : ℚ))
          (if R.unif s.u <
            env.parameters.resourceRegenerationRate * dt then (1 : ℚ) else 0)))
          ≤ 1 := Int.ceil_le.mpr (by exact_mod_cast hq)
      omega
    · unfold updateResources
      rw [if_neg hc]
      dsimp only
      omega
  · intro M hM hle
    by_cases hc : (env.resources.length : ℚ) < env.parameters.maxResources
    · unfold updateResources
      rw [if_pos hc]
      dsimp only [takeU]
      rw [spawnResources_length]
      have hb : (if R.unif s.u <
          env.parameters.resourceRegenerationRate * dt then (1 : ℚ) else 0)
          ≤ 1 := by split <;> norm_num
      have hq : max 0 (min
          (env.parameters.maxResources - (env.resources.length : ℚ))
          (if R.unif s.u <
            env.parameters.resourceRegenerationRate * dt then (1 : ℚ) else 0))
          ≤ 1 := by
        refine max_le (by norm_num) (le_trans (min_le_right _ _) hb)
      have hceil : Int.ceil (max 0 (min
          (env.parameters.maxResources - (env.resources.length : ℚ))
          (if R.unif s.u <
            env.parameters.resourceRegenerationRate * dt then (1 : ℚ) else 0)))
          ≤ 1 := Int.ceil_le.mpr (by exact_mod_cast hq)
      have hlt : env.resources.length < M := by
        rw [hM] at hc
        exact_mod_cast hc
      omega
    · unfold updateResources
      rw [if_neg hc]
      exact hle
  · intro hc
    unfold updateResources
    rw [if_neg hc]
  · intro hc hrb hneed
    unfold updateResources
    rw [if_pos hc]
    dsimp only [takeU]
    rw [if_pos hrb, min_eq_right hneed]
    norm_num
    simp [spawnResources, takeU]
  · intro hnil hrate hrb hmax
    have hc : ((env.resources.length : ℚ)) < env.parameters.maxResources := by
      rw [hnil]
      simpa using hmax
    unfold updateResources
    rw [if_pos hc]
    dsimp only [takeU]
    rw [hrate, if_pos hrb, hnil]
    dsimp only [List.length_nil]
    have hmin_pos : (0 : ℚ) < min (env.parameters.maxResources - (0 : ℕ)) 1 :=
      lt_min (by push_cast; linarith) one_pos
    have hmin_le : min (env.parameters.maxResources - ((0 : ℕ) : ℚ)) 1 ≤ 1 :=
      min_le_right _ _
    have hmax0 : max 0 (min (env.parameters.maxResources - ((0 : ℕ) : ℚ)) 1)
        = min (env.parameters.maxResources - ((0 : ℕ) : ℚ)) 1 :=
      max_eq_right (le_of_lt hmin_pos)
    rw [hmax0]
    have hceil1 : Int.ceil (min (env.parameters.maxResources - ((0 : ℕ) : ℚ)) 1)
        = 1 := by
      have h1 : Int.ceil (min (env.parameters.maxResources - ((0 : ℕ) : ℚ)) 1)
          ≤ 1 := Int.ceil_le.mpr (by exact_mod_cast hmin_le)
      have h2 : 0 < Int.ceil (min (env.parameters.maxResources - ((0 : ℕ) : ℚ)) 1) :=
        Int.ceil_pos.mpr hmin_pos
      omega
    rw [hceil1]
    simp [spawnResources, takeU]

/-- A concrete environment for the C6 scenario: no resources,
`regenerationRate = 1.0`, cap 50. -/
def envRegen0 : EnvState :=
  { resources := [], boundaries := ⟨800, 600⟩, parameters := ⟨1, 50⟩ }

/-- Witness for C6, scenario D: 0 resources, `regenerationRate = 1.0`,
`deltaTime = 1` — exactly one resource is added that tick. -/
theorem updateResources_spec_witness :
    (updateResources rng0 "t" envRegen0 1 rs0).1.resources.length = 1 :=
  (updateResources_spec rng0 "t" envRegen0 1 rs0).2.2.2.2
    rfl (by norm_num [envRegen0]) (by norm_num [rng0, rs0])
    (by norm_num [envRegen0])

/-! ## C3 — appendage count stays in [0, 3] -/

/-- Per-appendage mutation neither adds nor removes appendages. -/
lemma mutateApps_length (R : Rng) (m : ℚ) (isJump : Bool) :
    ∀ (l : List Appendage) (s : RS),
      ((mutateApps R m isJump l s).1).length = l.length := by
  intro l
  induction l with
  | nil => intro s; rfl
  | cons a rest ih =>
    intro s
    rw [mutateApps]
    dsimp only
    rw [List.length_cons, List.length_cons, ih]

/-- The add step keeps the appendage count at most 3 (it fires only
strictly below 3 and adds one). -/
lemma maybeAddAppendage_length_le (R : Rng) (m : ℚ) (isJump : Bool)
    (apps : List Appendage) (s : RS) (h : apps.length ≤ 3) :
    ((maybeAddAppendage R m isJump apps s).1).length ≤ 3 := by
  unfold maybeAddAppendage
  dsimp only [takeU]
  split_ifs with h1 h2 <;> simp_all [List.length_append] <;> omega

/-- The remove step never grows the appendage list. -/
lemma maybeRemoveAppendage_length_le (R : Rng) (m : ℚ) (isJump : Bool)
    (apps : List Appendage) (s : RS) :
    ((maybeRemoveAppendage R m isJump apps s).1).length ≤ apps.length := by
  unfold maybeRemoveAppendage
  dsimp only [takeU]
  split_ifs <;> first
    | exact List.length_eraseIdx_le _ _
    | exact le_refl _

/-- One `mutateGenome` call preserves the appendage bound: the add
branch fires only below 3 and adds one, the remove branch only shrinks
the list. -/
lemma mutateGenome_apps_length_le (R : Rng) (m : ℚ) (g : Genome) (s : RS)
    (h : g.appendages.length ≤ 3) :
    ((mutateGenome R m g s).1).appendages.length ≤ 3 := by
  unfold mutateGenome
  dsimp only [takeU]
  refine le_trans (maybeRemoveAppendage_length_le _ _ _ _ _) ?_
  refine maybeAddAppendage_length_le _ _ _ _ _ ?_
  rw [mutateApps_length]
  exact h

/-- The bound is preserved by any number of successive calls. -/
lemma mutateIter_apps_length_le (R : Rng) (m : ℚ) :
    ∀ (n : ℕ) (g : Genome) (s : RS), g.appendages.length ≤ 3 →
      ((mutateIter R m n (g, s)).1).appendages.length ≤ 3 := by
  intro n
  induction n with
  | zero => intro g s h; exact h
  | succ k ih =>
    intro g s h
    rw [mutateIter]
    show ((mutateIter R m k (mutateGenome R m g s)).1).appendages.length ≤ 3
    have h2 := mutateGenome_apps_length_le R m g s h
    rcases hge : mutateGenome R m g s with ⟨g2, s2⟩
    rw [hge] at h2
    exact ih g2 s2 h2

/-- The appendage-push loop appends exactly `n` appendages. -/
lemma addRandomAppendages_length (R : Rng) :
    ∀ (n : ℕ) (acc : List Appendage) (s : RS),
      ((addRandomAppendages R n acc s).1).length = acc.length + n := by
  intro n
  induction n with
  | zero => intro acc s; rfl
  | succ k ih =>
    intro acc s
    rw [addRandomAppendages]
    dsimp only
    rw [ih]
    simp
    omega

/-- An initially generated genome has at most 3 appendages:
`floor(random(0, 3.99)) ≤ 3` for any `Math.random()` result `< 1`. -/
lemma generateRandomGenome_apps_le (R : Rng) (s : RS)
    (hr : ∀ n, R.unif n < 1) :
    ((generateRandomGenome R s).1).appendages.length ≤ 3 := by
  unfold generateRandomGenome randomQ
  dsimp only [takeU]
  rw [addRandomAppendages_length]
  have h := hr (s.u + 1 + 1 + 1 + 1 + 1 + 1)
  have h2 : (R.unif (s.u + 1 + 1 + 1 + 1 + 1 + 1) * (3.99 - 0) + 0 : ℚ)
      < 4 := by nlinarith
  have h3 : Int.floor (R.unif (s.u + 1 + 1 + 1 + 1 + 1 + 1) * (3.99 - 0)
      + 0 : ℚ) < 4 := by
    exact_mod_cast Int.floor_lt.mpr (by exact_mod_cast h2)
  simp only [List.length_nil, Nat.zero_add]
  omega

/-- C3: a genome with at most 3 appendages still has at most 3 (and, as
a natural number, at least 0) after `mutateGenome`, after any number of
repeated `mutateGenome` calls, and every initially generated genome
satisfies the bound — whichever probabilistic branches fire. -/
theorem mutateGenome_appendage_bound (R : Rng) (m : ℚ) (g : Genome)
    (s : RS) (hlen : g.appendages.length ≤ 3) (hr : ∀ n, R.unif n < 1) :
    ((mutateGenome R m g s).1).appendages.length ≤ 3
    ∧ (∀ n, ((mutateIter R m n (g, s)).1).appendages.length ≤ 3)
    ∧ (∀ s2, ((generateRandomGenome R s2).1).appendages.length ≤ 3) :=
  ⟨mutateGenome_apps_length_le R m g s hlen,
   fun n => mutateIter_apps_length_le R m n g s hlen,
   fun s2 => generateRandomGenome_apps_le R s2 hr⟩

/-- Witness for C3 at the default genome and the all-zeros random
oracle. -/
theorem mutateGenome_appendage_bound_witness :
    ((mutateGenome rng0 CONSTANTS.DEFAULT_MUTATION_RATE
        generateDefaultGenome rs0).1).appendages.length ≤ 3 :=
  (mutateGenome_appendage_bound rng0 CONSTANTS.DEFAULT_MUTATION_RATE
    generateDefaultGenome rs0 (by norm_num [generateDefaultGenome])
    (fun n => by norm_num [rng0])).1

/-! ## C4 — gene values stay in [0, 1] -/

/-- A gene value lies in [0, 1]. -/
abbrev GeneInRange (g : Gene) : Prop := 0 ≤ g.value ∧ g.value ≤ 1

/-- All three scalar sub-genes of an appendage lie in [0, 1]. -/
abbrev AppInRange (a : Appendage) : Prop :=
  GeneInRange a.length ∧ GeneInRange a.position ∧ GeneInRange a.angle

/-- Every scalar gene value of the genome, including every appendage
sub-gene, lies in [0, 1]. -/
abbrev GenomeInRange (g : Genome) : Prop :=
  GeneInRange g.bodySize ∧ GeneInRange g.bodyShape ∧
  GeneInRange g.metabolism ∧ GeneInRange g.sensorRange ∧
  GeneInRange g.speed ∧ GeneInRange g.turnRate ∧
  ∀ a ∈ g.appendages, AppInRange a

/-- `Math.max(0, Math.min(1, x))` lies in [0, 1]. -/
lemma clamp01_mem (x : ℚ) : 0 ≤ max 0 (min 1 x) ∧ max 0 (min 1 x) ≤ 1 :=
  ⟨le_max_left _ _, max_le (by norm_num) (min_le_left _ _)⟩

/-- A scalar-gene mutation step clamps, so it preserves the range. -/
lemma mutateGene_range (R : Rng) (m magnitude : ℚ) (g : Gene) (s : RS)
    (h : GeneInRange g) : GeneInRange ((mutateGene R m magnitude g s).1) := by
  unfold mutateGene
  dsimp only [takeU]
  split_ifs with h1
  · exact clamp01_mem _
  · exact h

/-- A per-appendage mutation step preserves the range of all three
sub-genes. -/
lemma mutateApp_range (R : Rng) (m : ℚ) (isJump : Bool) (a : Appendage)
    (s : RS) (h : AppInRange a) :
    AppInRange ((mutateApp R m isJump a s).1) := by
  unfold mutateApp
  dsimp only [takeU]
  generalize hL : mutateGene R m
    (if isJump = true then (0.25 : ℚ) else 0.1) a.length s = L
  generalize hP : mutateGene R m
    (if isJump = true then (0.25 : ℚ) else 0.1) a.position L.2 = P
  generalize hA : mutateGene R m
    (if isJump = true then (0.25 : ℚ) else 0.1) a.angle P.2 = A
  have hLr : GeneInRange L.1 := by
    rw [← hL]; exact mutateGene_range _ _ _ _ _ h.1
  have hPr : GeneInRange P.1 := by
    rw [← hP]; exact mutateGene_range _ _ _ _ _ h.2.1
  have hAr : GeneInRange A.1 := by
    rw [← hA]; exact mutateGene_range _ _ _ _ _ h.2.2
  split_ifs
  all_goals refine ⟨?_, ?_, ?_⟩
  all_goals dsimp only
  all_goals first
    | exact hLr
    | exact hPr
    | exact hAr
    | exact clamp01_mem _

/-- The `forEach` over appendages preserves the range of every entry. -/
lemma mutateApps_range (R : Rng) (m : ℚ) (isJump : Bool) :
    ∀ (l : List Appendage) (s : RS), (∀ a ∈ l, AppInRange a) →
      ∀ a ∈ (mutateApps R m isJump l s).1, AppInRange a := by
  intro l
  induction l with
  | nil => intro s h a ha; simp [mutateApps] at ha
  | cons hd tl ih =>
    intro s h a ha
    rw [mutateApps] at ha
    dsimp only at ha
    rcases List.mem_cons.mp ha with h1 | h1
    · subst h1
      exact mutateApp_range _ _ _ _ _ (h hd (by simp))
    · exact ih _ (fun x hx => h x (by simp [hx])) a h1

/-- A freshly initialized appendage has all sub-genes in [0, 1]:
`random(0.3, 0.8) ⊆ [0.3, 0.8)` and `random(0, 1) ⊆ [0, 1)`. -/
lemma freshAppendage_range (R : Rng) (s : RS)
    (hr : ∀ n, 0 ≤ R.unif n ∧ R.unif n < 1) :
    AppInRange ((freshAppendage R s).1) := by
  unfold freshAppendage randomQ
  dsimp only [takeU]
  obtain ⟨hl0, hl1⟩ := hr (s.u + 1)
  obtain ⟨hp0, hp1⟩ := hr (s.u + 1 + 1)
  obtain ⟨ha0, ha1⟩ := hr (s.u + 1 + 1 + 1)
  refine ⟨⟨by nlinarith, by nlinarith⟩, ⟨by nlinarith, by nlinarith⟩,
    ⟨by nlinarith, by nlinarith⟩⟩

/-- The add step preserves the range of every appendage. -/
lemma maybeAddAppendage_range (R : Rng) (m : ℚ) (isJump : Bool)
    (apps : List Appendage) (s : RS)
    (hr : ∀ n, 0 ≤ R.unif n ∧ R.unif n < 1)
    (h : ∀ a ∈ apps, AppInRange a) :
    ∀ a ∈ (maybeAddAppendage R m isJump apps s).1, AppInRange a := by
  unfold maybeAddAppendage
  dsimp only [takeU]
  split_ifs <;> intro a ha <;> dsimp only at ha
  all_goals first
    | exact h a ha
    | (rcases List.mem_append.mp ha with hm | hm <;>
        first
          | exact h a hm
          | (rw [List.mem_singleton] at hm
             subst hm
             exact freshAppendage_range R _ hr))

/-- The remove step preserves the range of every appendage (splicing
yields a sublist). -/
lemma maybeRemoveAppendage_range (R : Rng) (m : ℚ) (isJump : Bool)
    (apps : List Appendage) (s : RS) (h : ∀ a ∈ apps, AppInRange a) :
    ∀ a ∈ (maybeRemoveAppendage R m isJump apps s).1, AppInRange a := by
  unfold maybeRemoveAppendage
  dsimp only [takeU]
  split_ifs <;> intro a ha <;> dsimp only at ha
  all_goals first
    | exact h a ha
    | exact h a ((List.eraseIdx_sublist _ _).subset ha)

/-- One `mutateGenome` call preserves the full range invariant. -/
lemma mutateGenome_range (R : Rng) (m : ℚ) (g : Genome) (s : RS)
    (hg : GenomeInRange g) (hr : ∀ n, 0 ≤ R.unif n ∧ R.unif n < 1) :
    GenomeInRange ((mutateGenome R m g s).1) := by
  obtain ⟨h1, h2, h3, h4, h5, h6, h7⟩ := hg
  unfold mutateGenome
  dsimp only [takeU]
  exact ⟨mutateGene_range _ _ _ _ _ h1, mutateGene_range _ _ _ _ _ h2,
    mutateGene_range _ _ _ _ _ h3, mutateGene_range _ _ _ _ _ h4,
    mutateGene_range _ _ _ _ _ h5, mutateGene_range _ _ _ _ _ h6,
    maybeRemoveAppendage_range _ _ _ _ _
      (maybeAddAppendage_range _ _ _ _ _ hr
        (mutateApps_range _ _ _ _ _ h7))⟩

/-- The range invariant is preserved by any number of successive
calls. -/
lemma mutateIter_range (R : Rng) (m : ℚ)
    (hr : ∀ n, 0 ≤ R.unif n ∧ R.unif n < 1) :
    ∀ (n : ℕ) (g : Genome) (s : RS), GenomeInRange g →
      GenomeInRange ((mutateIter R m n (g, s)).1) := by
  intro n
  induction n with
  | zero => intro g s h; exact h
  | succ k ih =>
    intro g s h
    rw [mutateIter]
    show GenomeInRange ((mutateIter R m k (mutateGenome R m g s)).1)
    have h2 := mutateGenome_range R m g s h hr
    rcases hge : mutateGenome R m g s with ⟨g2, s2⟩
    rw [hge] at h2
    exact ih g2 s2 h2

/-- C4: a genome whose scalar gene values (including every appendage's
`length`, `position`, `angle`) all lie in [0, 1] still satisfies the
bound after `mutateGenome` — through jump mutations, the
specialization event, type flips and newly appended appendages — and
after any number of successive mutation calls. -/
theorem mutateGenome_range_invariant (R : Rng) (m : ℚ) (g : Genome)
    (s : RS) (hg : GenomeInRange g)
    (hr : ∀ n, 0 ≤ R.unif n ∧ R.unif n < 1) :
    GenomeInRange ((mutateGenome R m g s).1)
    ∧ ∀ n, GenomeInRange ((mutateIter R m n (g, s)).1) :=
  ⟨mutateGenome_range R m g s hg hr,
   fun n => mutateIter_range R m hr n g s hg⟩

/-- Witness for C4 at the default genome and the all-zeros random
oracle. -/
theorem mutateGenome_range_invariant_witness :
    GenomeInRange ((mutateGenome rng0 CONSTANTS.DEFAULT_MUTATION_RATE
      generateDefaultGenome rs0).1) :=
  (mutateGenome_range_invariant rng0 CONSTANTS.DEFAULT_MUTATION_RATE
    generateDefaultGenome rs0
    (by norm_num [generateDefaultGenome, GenomeInRange, GeneInRange,
      AppInRange])
    (fun n => by norm_num [rng0])).1

/-! ## C1 — reproduction removes the updated parent (code bug) -/

/-- A population holding exactly the parent `organism0`
(id "p", energy 200). -/
def simState0 : SimState := ⟨[organism0], 0⟩

/-- C1 evaluated at the failing input: reproduction on a parent with
energy 200 succeeds and creates the offspring with energy
`200 * 0.8 = 160`, but the resulting population is `[offspring]` only —
`removeOrganism(parentId)` filters out every organism with the parent's
id, including the freshly pushed updated parent, so no organism with
the parent's genome and the reduced energy `200 * 0.2 = 40` remains. -/
theorem reproduceOrganism_parent_removed_bug :
    (reproduceOrganism mathOracle0 rng0 CONSTANTS.DEFAULT_MUTATION_RATE
        simState0 "p" rs0).1 = some "c"
    ∧ ((reproduceOrganism mathOracle0 rng0 CONSTANTS.DEFAULT_MUTATION_RATE
        simState0 "p" rs0).2.1.organisms.map fun o =>
          (o.id, o.state.energy))
      = [("c", 160)] := by
  norm_num [reproduceOrganism, getOrganismById, simState0, organism0,
    createOrganism, removeOrganism, takeU, takeG, takeId, rng0,
    mathOracle0, rs0, CONSTANTS.REPRODUCTION_ENERGY_THRESHOLD,
    CONSTANTS.ENERGY_TRANSFER_RATIO, CONSTANTS.ORGANISM_DEFAULT_ENERGY,
    List.filter]
  rfl
